import Mathlib

/-!
Formal model of the display-topology and power-management core of
libthinkpad (`src/lib/libthinkdock.cpp`), as a shallow embedding.

Modelling conventions:
* X11 opaque ids (`RRCrtc`, `RROutput`, `RRMode`) are `Nat`; the X11
  null sentinel `None` is `0`.
* Null pointers are `Option.none`; a C++ dereference of a possibly-null
  pointer is modelled in the `Option` monad, so a function whose C++
  body can dereference a null pointer returns `Option _`, and `none`
  means the execution hit undefined behaviour (a null dereference).
* The quad-directional neighbour graph is modelled anchor-centrically:
  a `Monitor` carries the data of its own output/controller/mode
  (`MNode`) plus the four neighbour chains as the finite lists of nodes
  visited by following `leftMonitor` / `rightMonitor` / `topMonitor` /
  `bottomMonitor` pointers outward to their ends, exactly the walks the
  source performs.  Neighbour monitors' own limit fields are irrelevant
  to every operation modelled here (the source only reads chain nodes'
  mode/output info and writes their positions).
* The mutation of fields is modelled by explicit state passing: each
  mutator returns the updated value.
* Server side effects of `applyConfiguration` are modelled as an
  explicit trace (`List ServerEffect`).
-/

/-- XRRModeInfo, restricted to the fields the source reads: id, width, height. -/

structure ModeInfo where
  id : Nat
  width : Nat
  height : Nat
deriving DecidableEq

/-- XRROutputInfo, restricted to the fields the layout code reads:
physical millimeter dimensions. -/

structure OutputInfo where
  mm_width : Nat
  mm_height : Nat
deriving DecidableEq

/-- XRRCrtcInfo, restricted to the fields the source reads and writes:
position, current mode id, width, height. -/

structure CrtcInfo where
  x : Int
  y : Int
  mode : Nat
  width : Nat
  height : Nat
deriving DecidableEq

/-- The struct `point` of the source: a pixel coordinate pair. -/

structure point where
  x : Int
  y : Int
deriving DecidableEq

/-- The per-output data of one `DisplayManager::Monitor` object:
its output id, controller id (0 = X11 `None`), output info, and the
two possibly-null pointers `videoControllerInfo` and `videoModeInfo`. -/

structure MNode where
  videoOutput : Nat
  videoController : Nat
  videoOutputInfo : OutputInfo
  videoControllerInfo : Option CrtcInfo
  videoModeInfo : Option ModeInfo
deriving DecidableEq

/-- A `DisplayManager::Monitor` anchor together with its four neighbour
chains (the nodes visited walking each neighbour pointer outward), the
pool's mode catalog it queries, its primary flag, and the memoized
canvas-limit fields declared in the header. -/

structure Monitor where
  node : MNode
  isPrimary : Bool
  leftChain : List MNode
  rightChain : List MNode
  topChain : List MNode
  bottomChain : List MNode
  modeCatalog : List ModeInfo
  screenWidth : Nat
  screenHeight : Nat
  screenWidthMillimeters : Nat
  screenHeightMillimeters : Nat
  xAxisMaxHeight : Nat
  xAxisMaxHeightmm : Nat
  yAxisMaxWidth : Nat
  yAxisMaxWidthmm : Nat
  limitsCalculated : Bool
deriving DecidableEq

/-- Width of the node's current mode (reads `videoModeInfo->width`;
the default is only exercised when the pointer is null, a case that
every statement using this projection excludes). -/
def MNode.modeWidth (n : MNode) : Nat :=
  match n.videoModeInfo with
  | none => 0
  | some mi => mi.width

/-- Height of the node's current mode (reads `videoModeInfo->height`). -/

def MNode.modeHeight (n : MNode) : Nat :=
  match n.videoModeInfo with
  | none => 0
  | some mi => mi.height

/-- Physical width, `videoOutputInfo->mm_width`. -/

def MNode.mmWidth (n : MNode) : Nat := n.videoOutputInfo.mm_width

/-- Physical height, `videoOutputInfo->mm_height`. -/

def MNode.mmHeight (n : MNode) : Nat := n.videoOutputInfo.mm_height

/-- True when every node of the chain has a non-null `videoModeInfo`. -/

def modesBound (l : List MNode) : Bool :=
  l.all fun n => n.videoModeInfo.isSome

/-- True when every node of the chain has a non-null `videoControllerInfo`. -/

def crtcsBound (l : List MNode) : Bool :=
  l.all fun n => n.videoControllerInfo.isSome

/-- True when the anchor and all four chains have non-null `videoModeInfo`. -/

def Monitor.allModesBound (m : Monitor) : Bool :=
  m.node.videoModeInfo.isSome && modesBound m.leftChain && modesBound m.rightChain
    && modesBound m.topChain && modesBound m.bottomChain

/-- True when the anchor and all four chains have non-null `videoControllerInfo`. -/

def Monitor.allCrtcsBound (m : Monitor) : Bool :=
  m.node.videoControllerInfo.isSome && crtcsBound m.leftChain && crtcsBound m.rightChain
    && crtcsBound m.topChain && crtcsBound m.bottomChain

/-! ### ScreenResources: the controller availability pool

`availableControllers` is a `vector<VideoController>`, modelled as a
`List Nat`.  `None` (the null sentinel) is `0`. -/

/-- `ScreenResources::releaseController`: appends the controller back to
the availability vector (`push_back`), with no duplicate detection. -/

def ScreenResources.releaseController (availableControllers : List Nat)
    (videoController : Nat) : List Nat :=
  availableControllers ++ [videoController]

/-- `ScreenResources::requestController`: if the availability vector is
empty, returns the null sentinel and leaves the vector unchanged;
otherwise removes and returns its first element. -/

def ScreenResources.requestController (availableControllers : List Nat) :
    Nat × List Nat :=
  match availableControllers with
  | [] => (0, [])
  | c :: rest => (c, rest)

/-! ### PowerManager and the Dock collaborator

`Dock::probe` and `Dock::isDocked` read fixed sysfs files and
`PowerManager::suspend` calls out to logind; all three are external
collaborators, so their results are parameters of the model.  The
routing logic of `PowerManager::requestSuspend` is the code under
verification. -/

/-- The `SUSPEND_REASON` enumeration. -/

inductive SUSPEND_REASON where
  | SUSPEND_REASON_BUTTON
  | SUSPEND_REASON_LID
deriving DecidableEq

/-- Observable outcome of `PowerManager::requestSuspend`: whether
`PowerManager::suspend()` was invoked, the returned boolean, and the
error-stream lines the function itself printed. -/

structure SuspendOutcome where
  suspendTriggered : Bool
  result : Bool
  errorLines : List String
deriving DecidableEq

/-- `PowerManager::requestSuspend`, with the dock collaborator's two
query results and the suspend backend's result passed in as parameters. -/

def PowerManager.requestSuspend (reason : SUSPEND_REASON)
    (probeResult isDockedResult suspendResult : Bool) : SuspendOutcome :=
  match reason with
  | .SUSPEND_REASON_BUTTON => ⟨true, suspendResult, []⟩
  | .SUSPEND_REASON_LID =>
    if !probeResult then
      ⟨false, false, ["dock is not sane/present"]⟩
    else if !isDockedResult then
      ⟨true, true, []⟩
    else
      ⟨false, false, ["ignoring lid event when docked"]⟩

/-! ### Claims C7, C8, C9 -/

/-! ### Monitor: setOutputMode (claims C5, C6) -/

/-- `Monitor::setOutputMode`: nulls `videoModeInfo`, scans the pool's
mode catalog for the first entry with the given id (the loop breaks on
the first match), logs if none was found, and then unconditionally
writes the controller info: `mode` from the argument, `height` from
`videoModeInfo->height` (a null dereference when the scan found
nothing), and `width` from the controller info's own current `width`.
A null `videoControllerInfo` is dereferenced by the first write. -/

def Monitor.setOutputMode (m : Monitor) (mode : Nat) : Option Monitor :=
  let found := m.modeCatalog.find? fun info => info.id == mode
  let m1 : Monitor := { m with node := { m.node with videoModeInfo := found } }
  match m1.node.videoControllerInfo with
  | none => none
  | some ci =>
    match m1.node.videoModeInfo with
    | none => none
    | some mi =>
      let ci1 : CrtcInfo := { ci with mode := mode, height := mi.height, width := ci.width }
      some { m1 with node := { m1.node with videoControllerInfo := some ci1 } }

/-- Concrete monitor used to exercise `setOutputMode`: controller info
bound with width 640, mode catalog holding the single mode id 1. -/

def mSet : Monitor where
  node :=
    { videoOutput := 7
      videoController := 1
      videoOutputInfo := ⟨300, 200⟩
      videoControllerInfo := some ⟨0, 0, 1, 640, 480⟩
      videoModeInfo := some ⟨1, 640, 480⟩ }
  isPrimary := false
  leftChain := []
  rightChain := []
  topChain := []
  bottomChain := []
  modeCatalog := [⟨1, 640, 480⟩, ⟨2, 1024, 768⟩]
  screenWidth := 0
  screenHeight := 0
  screenWidthMillimeters := 0
  screenHeightMillimeters := 0
  xAxisMaxHeight := 0
  xAxisMaxHeightmm := 0
  yAxisMaxWidth := 0
  yAxisMaxWidthmm := 0
  limitsCalculated := false

/-! ### Monitor: isOff, release, and the per-monitor commit (claim C10) -/

/-- `Monitor::isOff`: true when no controller is assigned; otherwise
reads `videoControllerInfo->mode` (a null dereference when the
controller id is set but the info pointer is null). -/

def Monitor.isOff (m : Monitor) : Option Bool :=
  if m.node.videoController = 0 then
    some true
  else
    match m.node.videoControllerInfo with
    | none => none
    | some ci => some (ci.mode == 0)

/-- `Monitor::release`: returns a held controller to the pool and resets
the controller id, controller info, and mode info to their null
sentinels. -/

def Monitor.release (m : Monitor) (availableControllers : List Nat) :
    Monitor × List Nat :=
  let node1 : MNode := { m.node with videoController := 0, videoControllerInfo := none, videoModeInfo := none }
  ({ m with node := node1 },
   if m.node.videoController ≠ 0 then
     ScreenResources.releaseController availableControllers m.node.videoController
   else availableControllers)

/-- One server-side effect issued by `Monitor::applyConfiguration`. -/

inductive ServerEffect where
  | grab
  | commitCrtc (controller : Nat) (x y : Int) (mode : Nat)
      (outputsArg : Nat) (noutputs : Nat)
  | setPrimaryOutput
  | setScreenSize (w h wmm hmm : Nat)
  | ungrab
  | sync
deriving DecidableEq

/-- The static helper `Monitor::applyConfiguration(XServer*, Monitor*)`:
one `XRRSetCrtcConfig` call, reading the monitor's controller info
(x, y, mode) through the pointer — a null dereference when the info is
the null sentinel — and passing either no outputs (disable) or the
monitor's single output depending on whether the mode is `None`. -/

def applyConfigurationCommit (n : MNode) : Option ServerEffect :=
  match n.videoControllerInfo with
  | none => none
  | some ci =>
    some (ServerEffect.commitCrtc n.videoController ci.x ci.y ci.mode
      (if ci.mode = 0 then 0 else n.videoOutput)
      (if ci.mode = 0 then 0 else 1))

/-! ### Monitor: calculateLimits (claims C2, C4) -/

/-- Accumulator of one axis pass of `calculateLimits`: the running
maximum transverse size (pixels and millimeters) and the running total
size (pixels and millimeters). -/

structure AxisAcc where
  maxPix : Nat
  maxMM : Nat
  totalPix : Nat
  totalMM : Nat
deriving DecidableEq

/-- One horizontal-axis walk of `calculateLimits` (the left-wing loop,
the central check, and the right-wing loop all run this body): update
the maximum height (pixels, then millimeters), then add the width to the
running totals.  Reads `videoModeInfo` through the pointer. -/

def hChainWalk : AxisAcc → List MNode → Option AxisAcc
  | acc, [] => some acc
  | acc, n :: rest =>
    match n.videoModeInfo with
    | none => none
    | some mi =>
      hChainWalk
        ⟨if mi.height > acc.maxPix then mi.height else acc.maxPix,
         if n.videoOutputInfo.mm_height > acc.maxMM then n.videoOutputInfo.mm_height else acc.maxMM,
         acc.totalPix + mi.width,
         acc.totalMM + n.videoOutputInfo.mm_width⟩
        rest

/-- One vertical-axis walk of `calculateLimits` (top wing, central
check, bottom wing): update the maximum width, then add the height to
the running totals. -/

def vChainWalk : AxisAcc → List MNode → Option AxisAcc
  | acc, [] => some acc
  | acc, n :: rest =>
    match n.videoModeInfo with
    | none => none
    | some mi =>
      vChainWalk
        ⟨if mi.width > acc.maxPix then mi.width else acc.maxPix,
         if n.videoOutputInfo.mm_width > acc.maxMM then n.videoOutputInfo.mm_width else acc.maxMM,
         acc.totalPix + mi.height,
         acc.totalMM + n.videoOutputInfo.mm_height⟩
        rest

/-- `Monitor::calculateLimits`: walks the left wing, the anchor, and the
right wing accumulating the horizontal totals and the maximum height;
walks the top wing, the anchor, and the bottom wing accumulating the
vertical totals and the maximum width; then normalizes each canvas
dimension against the transverse maximum and sets the memoization flag.
The accumulators start from the current field values — the function
itself performs no memoization check. -/

def Monitor.calculateLimits (m : Monitor) : Option Monitor :=
  (hChainWalk ⟨m.xAxisMaxHeight, m.xAxisMaxHeightmm, m.screenWidth, m.screenWidthMillimeters⟩ m.leftChain).bind fun hLeft =>
  (hChainWalk hLeft [m.node]).bind fun hCenter =>
  (hChainWalk hCenter m.rightChain).bind fun hFull =>
  (vChainWalk ⟨m.yAxisMaxWidth, m.yAxisMaxWidthmm, m.screenHeight, m.screenHeightMillimeters⟩ m.topChain).bind fun vTop =>
  (vChainWalk vTop [m.node]).bind fun vCenter =>
  (vChainWalk vCenter m.bottomChain).bind fun vFull =>
  some { m with
    xAxisMaxHeight := hFull.maxPix,
    xAxisMaxHeightmm := hFull.maxMM,
    yAxisMaxWidth := vFull.maxPix,
    yAxisMaxWidthmm := vFull.maxMM,
    screenWidth := if vFull.maxPix > hFull.totalPix then vFull.maxPix else hFull.totalPix,
    screenWidthMillimeters := if vFull.maxMM > hFull.totalMM then vFull.maxMM else hFull.totalMM,
    screenHeight := if hFull.maxPix > vFull.totalPix then hFull.maxPix else vFull.totalPix,
    screenHeightMillimeters := if hFull.maxMM > vFull.totalMM then hFull.maxMM else vFull.totalMM,
    limitsCalculated := true }

/-- The guarded invocation of `calculateLimits` performed by
`applyConfiguration`: recompute only when the limits are not yet
memoized. -/

def Monitor.calculateLimitsMemo (m : Monitor) : Option Monitor :=
  if m.limitsCalculated then some m else m.calculateLimits

/-- Running maximum of `f` over a chain, as the source's compare-and-assign loop. -/

def chainMaxBy (f : MNode → Nat) (a : Nat) (l : List MNode) : Nat :=
  l.foldl (fun a n => Nat.max a (f n)) a

/-- Total of `f` over a chain. -/

def chainSumBy (f : MNode → Nat) (l : List MNode) : Nat :=
  (l.map f).sum

/-- True when every memoized canvas-limit field still holds its initial
zero value (the state of a freshly constructed Monitor, before any
`calculateLimits` call). -/

def Monitor.limitsFresh (m : Monitor) : Bool :=
  m.screenWidth == 0 && m.screenHeight == 0 && m.screenWidthMillimeters == 0 &&
  m.screenHeightMillimeters == 0 && m.xAxisMaxHeight == 0 && m.xAxisMaxHeightmm == 0 &&
  m.yAxisMaxWidth == 0 && m.yAxisMaxWidthmm == 0

/-- The result of the first `calculateLimits` call on `mSet`. -/

def mSetLim : Monitor :=
  { mSet with
    screenWidth := 640
    screenHeight := 480
    screenWidthMillimeters := 300
    screenHeightMillimeters := 200
    xAxisMaxHeight := 480
    xAxisMaxHeightmm := 200
    yAxisMaxWidth := 640
    yAxisMaxWidthmm := 300
    limitsCalculated := true }

/-- Concrete topology for C4's scenario: a 1920x1080 anchor with one
1600x900 top neighbour and no monitor on the horizontal axis taller
than 1980 pixels. -/

def mQuad : Monitor where
  node :=
    { videoOutput := 1
      videoController := 1
      videoOutputInfo := ⟨509, 286⟩
      videoControllerInfo := some ⟨0, 0, 1, 1920, 1080⟩
      videoModeInfo := some ⟨1, 1920, 1080⟩ }
  isPrimary := true
  leftChain := []
  rightChain := []
  topChain :=
    [{ videoOutput := 2
       videoController := 2
       videoOutputInfo := ⟨400, 225⟩
       videoControllerInfo := some ⟨0, 0, 2, 1600, 900⟩
       videoModeInfo := some ⟨2, 1600, 900⟩ }]
  bottomChain := []
  modeCatalog := [⟨1, 1920, 1080⟩, ⟨2, 1600, 900⟩]
  screenWidth := 0
  screenHeight := 0
  screenWidthMillimeters := 0
  screenHeightMillimeters := 0
  xAxisMaxHeight := 0
  xAxisMaxHeightmm := 0
  yAxisMaxWidth := 0
  yAxisMaxWidthmm := 0
  limitsCalculated := false

/-! ### Monitor: relative positions (claim C3) -/

/-- `Monitor::setPosition`: with a null controller info, logs and leaves
the node unchanged; otherwise writes the x and y of the controller info. -/

def MNode.setPosition (n : MNode) (position : point) : MNode :=
  match n.videoControllerInfo with
  | none => n
  | some ci => { n with videoControllerInfo := some { ci with x := position.x, y := position.y } }

/-- `Monitor::getPosition`: the sentinel (-1, -1) for a null controller
info, otherwise the controller info's coordinates. -/

def MNode.getPosition (n : MNode) : point :=
  match n.videoControllerInfo with
  | none => ⟨-1, -1⟩
  | some ci => ⟨ci.x, ci.y⟩

/-- The left-wing-width loop of `getPrimaryRelativePosition`: sums the
chain's mode widths, reading `videoModeInfo` through the pointer. -/

def chainWidthSum : Nat → List MNode → Option Nat
  | acc, [] => some acc
  | acc, n :: rest =>
    match n.videoModeInfo with
    | none => none
    | some mi => chainWidthSum (acc + mi.width) rest

/-- The top-wing-height loop of `getPrimaryRelativePosition`. -/

def chainHeightSum : Nat → List MNode → Option Nat
  | acc, [] => some acc
  | acc, n :: rest =>
    match n.videoModeInfo with
    | none => none
    | some mi => chainHeightSum (acc + mi.height) rest

/-- `Monitor::getPrimaryRelativePosition`: the anchor origin is (sum of
left-chain widths, sum of top-chain heights); the anchor's position is
stored and the root returned. -/

def Monitor.getPrimaryRelativePosition (m : Monitor) : Option (Monitor × point) :=
  (chainWidthSum 0 m.leftChain).bind fun leftWingWidth =>
  (chainHeightSum 0 m.topChain).bind fun topWingTotal =>
  let root : point := ⟨(leftWingWidth : Int), (topWingTotal : Int)⟩
  some ({ m with node := m.node.setPosition root }, root)

/-- The left-wing loop of `calculateRelativePositions`: every node gets
y = root.y and x = root.x minus the node's own width — the subtraction
is always from the fixed `root.x`, not from the previously placed
position. -/

def placeLeftWing (root : point) : List MNode → Option (List MNode)
  | [] => some []
  | n :: rest =>
    match n.videoModeInfo with
    | none => none
    | some mi =>
      (placeLeftWing root rest).bind fun rest1 =>
      some (n.setPosition ⟨root.x - (mi.width : Int), root.y⟩ :: rest1)

/-- The right-wing loop: the running position is assigned to the node
and then advanced by the node's own width (so each successive node
starts where the previous one ended). -/

def placeRightWing : point → List MNode → Option (List MNode)
  | _, [] => some []
  | position, n :: rest =>
    match n.videoModeInfo with
    | none => none
    | some mi =>
      (placeRightWing ⟨position.x + (mi.width : Int), position.y⟩ rest).bind fun rest1 =>
      some (n.setPosition position :: rest1)

/-- The top-wing loop: the running y is decreased by the node's own
height before being assigned, and the decreased position carries over to
the next node (cumulative). -/

def placeTopWing : point → List MNode → Option (List MNode)
  | _, [] => some []
  | position, n :: rest =>
    match n.videoModeInfo with
    | none => none
    | some mi =>
      (placeTopWing ⟨position.x, position.y - (mi.height : Int)⟩ rest).bind fun rest1 =>
      some (n.setPosition ⟨position.x, position.y - (mi.height : Int)⟩ :: rest1)

/-- The bottom-wing loop: the running position is assigned and then
advanced by the node's own height (cumulative). -/

def placeBottomWing : point → List MNode → Option (List MNode)
  | _, [] => some []
  | position, n :: rest =>
    match n.videoModeInfo with
    | none => none
    | some mi =>
      (placeBottomWing ⟨position.x, position.y + (mi.height : Int)⟩ rest).bind fun rest1 =>
      some (n.setPosition position :: rest1)

/-- `Monitor::calculateRelativePositions`: computes the anchor root,
places the left wing, then (dereferencing the anchor's mode info for its
width and height) the right, top, and bottom wings. -/

def Monitor.calculateRelativePositions (m : Monitor) : Option Monitor :=
  m.getPrimaryRelativePosition.bind fun pr =>
  (placeLeftWing pr.2 pr.1.leftChain).bind fun leftPlaced =>
  match pr.1.node.videoModeInfo with
  | none => none
  | some ami =>
    (placeRightWing ⟨pr.2.x + (ami.width : Int), pr.2.y⟩ pr.1.rightChain).bind fun rightPlaced =>
    (placeTopWing pr.2 pr.1.topChain).bind fun topPlaced =>
    (placeBottomWing ⟨pr.2.x, pr.2.y + (ami.height : Int)⟩ pr.1.bottomChain).bind fun bottomPlaced =>
    some { pr.1 with leftChain := leftPlaced, rightChain := rightPlaced,
                     topChain := topPlaced, bottomChain := bottomPlaced }

/-- Total version of the left-wing placement (defined on chains whose
mode infos are all bound). -/

def placeLeftWingP (root : point) (l : List MNode) : List MNode :=
  l.map fun n => n.setPosition ⟨root.x - (n.modeWidth : Int), root.y⟩

/-- Total version of the right-wing placement. -/

def placeRightWingP : point → List MNode → List MNode
  | _, [] => []
  | position, n :: rest =>
    n.setPosition position :: placeRightWingP ⟨position.x + (n.modeWidth : Int), position.y⟩ rest

/-- Total version of the top-wing placement. -/

def placeTopWingP : point → List MNode → List MNode
  | _, [] => []
  | position, n :: rest =>
    n.setPosition ⟨position.x, position.y - (n.modeHeight : Int)⟩ ::
      placeTopWingP ⟨position.x, position.y - (n.modeHeight : Int)⟩ rest

/-- Total version of the bottom-wing placement. -/

def placeBottomWingP : point → List MNode → List MNode
  | _, [] => []
  | position, n :: rest =>
    n.setPosition position :: placeBottomWingP ⟨position.x, position.y + (n.modeHeight : Int)⟩ rest

/-- The explicit result of `calculateRelativePositions` on a topology
whose mode infos are all bound. -/

def Monitor.relPosP (m : Monitor) : Monitor :=
  let root : point := ⟨(chainSumBy MNode.modeWidth m.leftChain : Int),
                       (chainSumBy MNode.modeHeight m.topChain : Int)⟩
  { m with node := m.node.setPosition root,
           leftChain := placeLeftWingP root m.leftChain,
           rightChain := placeRightWingP ⟨root.x + (m.node.modeWidth : Int), root.y⟩ m.rightChain,
           topChain := placeTopWingP root m.topChain,
           bottomChain := placeBottomWingP ⟨root.x, root.y + (m.node.modeHeight : Int)⟩ m.bottomChain }

/-- Positions the right-wing walk assigns: the first node at the start
point, each following node advanced by the previous node's width. -/

def rightWingPts : point → List MNode → List point
  | _, [] => []
  | position, n :: rest => position :: rightWingPts ⟨position.x + (n.modeWidth : Int), position.y⟩ rest

/-- Positions the top-wing walk assigns: each node's y is the previous
assigned y minus the node's own height. -/

def topWingPts : point → List MNode → List point
  | _, [] => []
  | position, n :: rest =>
    ⟨position.x, position.y - (n.modeHeight : Int)⟩ ::
      topWingPts ⟨position.x, position.y - (n.modeHeight : Int)⟩ rest

/-- Positions the bottom-wing walk assigns: the first node at the start
point, each following node advanced by the previous node's height. -/

def bottomWingPts : point → List MNode → List point
  | _, [] => []
  | position, n :: rest => position :: bottomWingPts ⟨position.x, position.y + (n.modeHeight : Int)⟩ rest

/-- Concrete three-monitor row for C3's scenario: anchor width 10, one
left neighbour of width 4, one right neighbour of width 6. -/

def mTri : Monitor where
  node :=
    { videoOutput := 1
      videoController := 1
      videoOutputInfo := ⟨100, 100⟩
      videoControllerInfo := some ⟨0, 0, 1, 10, 10⟩
      videoModeInfo := some ⟨1, 10, 10⟩ }
  isPrimary := true
  leftChain :=
    [{ videoOutput := 2
       videoController := 2
       videoOutputInfo := ⟨40, 40⟩
       videoControllerInfo := some ⟨0, 0, 2, 4, 4⟩
       videoModeInfo := some ⟨2, 4, 4⟩ }]
  rightChain :=
    [{ videoOutput := 3
       videoController := 3
       videoOutputInfo := ⟨60, 60⟩
       videoControllerInfo := some ⟨0, 0, 3, 6, 6⟩
       videoModeInfo := some ⟨3, 6, 6⟩ }]
  topChain := []
  bottomChain := []
  modeCatalog := [⟨1, 10, 10⟩, ⟨2, 4, 4⟩, ⟨3, 6, 6⟩]
  screenWidth := 0
  screenHeight := 0
  screenWidthMillimeters := 0
  screenHeightMillimeters := 0
  xAxisMaxHeight := 0
  xAxisMaxHeightmm := 0
  yAxisMaxWidth := 0
  yAxisMaxWidthmm := 0
  limitsCalculated := false

/-- Concrete topology refuting C3 as stated: anchor width 10 with two
left neighbours of widths 1 (adjacent) and 2 (outer). -/

def mLeftPair : Monitor where
  node :=
    { videoOutput := 1
      videoController := 1
      videoOutputInfo := ⟨100, 100⟩
      videoControllerInfo := some ⟨0, 0, 1, 10, 10⟩
      videoModeInfo := some ⟨1, 10, 10⟩ }
  isPrimary := false
  leftChain :=
    [{ videoOutput := 2
       videoController := 2
       videoOutputInfo := ⟨10, 10⟩
       videoControllerInfo := some ⟨0, 0, 2, 1, 1⟩
       videoModeInfo := some ⟨2, 1, 1⟩ },
     { videoOutput := 3
       videoController := 3
       videoOutputInfo := ⟨20, 20⟩
       videoControllerInfo := some ⟨0, 0, 3, 2, 2⟩
       videoModeInfo := some ⟨3, 2, 2⟩ }]
  rightChain := []
  topChain := []
  bottomChain := []
  modeCatalog := [⟨1, 10, 10⟩, ⟨2, 1, 1⟩, ⟨3, 2, 2⟩]
  screenWidth := 0
  screenHeight := 0
  screenWidthMillimeters := 0
  screenHeightMillimeters := 0
  xAxisMaxHeight := 0
  xAxisMaxHeightmm := 0
  yAxisMaxWidth := 0
  yAxisMaxWidthmm := 0
  limitsCalculated := false

/-! ### Monitor: applyConfiguration (claims C1, C10) -/

/-- The commit cascade over one neighbour chain: one
`applyConfiguration(server, ptr)` call per node, walking outward. -/

def commitChain : List MNode → Option (List ServerEffect)
  | [] => some []
  | n :: rest =>
    (applyConfigurationCommit n).bind fun e =>
    (commitChain rest).bind fun es =>
    some (e :: es)

/-- Shape of a server effect, used to state ordering properties:
commits keep the controller they target. -/

inductive EffectTag where
  | grabT
  | commitT (controller : Nat)
  | primaryT
  | screenSizeT
  | ungrabT
  | syncT
deriving DecidableEq

/-- The shape of one server effect. -/

def ServerEffect.tag : ServerEffect → EffectTag
  | .grab => .grabT
  | .commitCrtc c _ _ _ _ _ => .commitT c
  | .setPrimaryOutput => .primaryT
  | .setScreenSize _ _ _ _ => .screenSizeT
  | .ungrab => .ungrabT
  | .sync => .syncT

/-- `Monitor::applyConfiguration()`: for an off Monitor, a single
disable commit; otherwise limits are computed when not yet memoized,
relative positions are recomputed unconditionally, and the server trace
is: grab, the anchor commit, the primary-output marker when the anchor's
primary flag is set, the four chain cascades (left, right, top, bottom,
no deduplication), one canvas-size write, ungrab, and a blocking sync. -/

def Monitor.applyConfiguration (m : Monitor) : Option (Monitor × List ServerEffect) :=
  m.isOff.bind fun off =>
  if off then
    (applyConfigurationCommit m.node).bind fun e => some (m, [e])
  else
    m.calculateLimitsMemo.bind fun m1 =>
    m1.calculateRelativePositions.bind fun m2 =>
    (applyConfigurationCommit m2.node).bind fun anchorCommit =>
    (commitChain m2.leftChain).bind fun leftCommits =>
    (commitChain m2.rightChain).bind fun rightCommits =>
    (commitChain m2.topChain).bind fun topCommits =>
    (commitChain m2.bottomChain).bind fun bottomCommits =>
    some (m2,
      ServerEffect.grab :: anchorCommit ::
      ((if m2.isPrimary then [ServerEffect.setPrimaryOutput] else []) ++
       leftCommits ++ rightCommits ++ topCommits ++ bottomCommits ++
       [ServerEffect.setScreenSize m2.screenWidth m2.screenHeight
          m2.screenWidthMillimeters m2.screenHeightMillimeters,
        ServerEffect.ungrab, ServerEffect.sync]))

/-- Concrete topology for C1: a primary anchor on controller 1 with one
left neighbour on controller 2, everything bound and active. -/

def cm1 : Monitor where
  node :=
    { videoOutput := 1
      videoController := 1
      videoOutputInfo := ⟨100, 100⟩
      videoControllerInfo := some ⟨0, 0, 1, 10, 10⟩
      videoModeInfo := some ⟨1, 10, 10⟩ }
  isPrimary := true
  leftChain :=
    [{ videoOutput := 2
       videoController := 2
       videoOutputInfo := ⟨40, 40⟩
       videoControllerInfo := some ⟨0, 0, 2, 4, 4⟩
       videoModeInfo := some ⟨2, 4, 4⟩ }]
  rightChain := []
  topChain := []
  bottomChain := []
  modeCatalog := [⟨1, 10, 10⟩, ⟨2, 4, 4⟩]
  screenWidth := 0
  screenHeight := 0
  screenWidthMillimeters := 0
  screenHeightMillimeters := 0
  xAxisMaxHeight := 0
  xAxisMaxHeightmm := 0
  yAxisMaxWidth := 0
  yAxisMaxWidthmm := 0
  limitsCalculated := false

/-- `Monitor::turnOff`: no-op on a null controller info; otherwise
disables the mode while keeping the controller and its info. -/

def Monitor.turnOff (m : Monitor) : Monitor :=
  match m.node.videoControllerInfo with
  | none => m
  | some ci =>
    { m with node := { m.node with videoControllerInfo := some { ci with mode := 0 },
                                   videoModeInfo := none } }

/-- The Monitor `release()` leaves behind from `mSet`: controller id and
both info pointers reset to the null sentinel. -/

def releasedMon : Monitor := (mSet.release []).1

/-! ### Lemmas and claim theorems -/

/-- Claim C7: `requestController` (the spec's `leaseController`) removes
and returns the first controller in availability order; on an empty pool
it returns the null sentinel `0` and leaves the pool unchanged; and the
seeded scenario {1, 2} leases 1 then 2, fails on the third lease, and
after releasing 1 a further lease returns 1. -/

theorem C7_request_controller_spec :
    (∀ (c : Nat) (rest : List Nat),
      ScreenResources.requestController (c :: rest) = (c, rest)) ∧
    ScreenResources.requestController [] = (0, []) ∧
    ScreenResources.requestController [1, 2] = (1, [2]) ∧
    ScreenResources.requestController [2] = (2, []) ∧
    ScreenResources.requestController
      (ScreenResources.releaseController [] 1) = (1, []) :=
  ⟨fun _ _ => rfl, rfl, rfl, rfl, rfl⟩

/-- Claim C8: for every non-empty availability pool, leasing the first
controller and then releasing that same controller yields a pool of the
same length and the same multiset of controllers. -/

theorem C8_lease_release_round_trip (pool : List Nat) (h : pool ≠ []) :
    (ScreenResources.releaseController
        (ScreenResources.requestController pool).2
        (ScreenResources.requestController pool).1).length = pool.length ∧
    ((ScreenResources.releaseController
        (ScreenResources.requestController pool).2
        (ScreenResources.requestController pool).1 : List Nat) : Multiset Nat)
      = (pool : Multiset Nat) := by
  match pool with
  | [] => exact absurd rfl h
  | c :: rest =>
    constructor
    · simp [ScreenResources.requestController, ScreenResources.releaseController]
    · exact Multiset.coe_eq_coe.mpr (List.perm_append_singleton c rest)

/-- Witness for C8 at the concrete pool [1, 2]. -/

theorem C8_lease_release_round_trip_witness :
    ([1, 2] : List Nat) ≠ [] ∧
    ((ScreenResources.releaseController
        (ScreenResources.requestController [1, 2]).2
        (ScreenResources.requestController [1, 2]).1).length
          = ([1, 2] : List Nat).length ∧
      ((ScreenResources.releaseController
        (ScreenResources.requestController [1, 2]).2
        (ScreenResources.requestController [1, 2]).1 : List Nat) : Multiset Nat)
          = (([1, 2] : List Nat) : Multiset Nat)) :=
  ⟨by decide, C8_lease_release_round_trip [1, 2] (by decide)⟩

/-- Claim C9: `requestSuspend` with reason lid-close does not trigger the
suspend and returns failure (with a log line) when the dock probe fails;
suppresses the suspend and returns failure when a present dock is
engaged; triggers the suspend and returns success when a present dock is
disengaged; and with reason button-press it triggers suspend
unconditionally. -/

theorem C9_request_suspend_cases (p d s : Bool) :
    PowerManager.requestSuspend .SUSPEND_REASON_LID false d s
      = ⟨false, false, ["dock is not sane/present"]⟩ ∧
    PowerManager.requestSuspend .SUSPEND_REASON_LID true true s
      = ⟨false, false, ["ignoring lid event when docked"]⟩ ∧
    PowerManager.requestSuspend .SUSPEND_REASON_LID true false s
      = ⟨true, true, []⟩ ∧
    (PowerManager.requestSuspend .SUSPEND_REASON_BUTTON p d s).suspendTriggered
      = true :=
  ⟨rfl, rfl, rfl, rfl⟩

/-- Claim C5: for a Monitor with bound controller info and a mode found
in the pool's catalog, `setOutputMode` sets the controller info's mode
field to the given mode, its height to the new mode's height, and keeps
the controller info's previous width. -/

theorem C5_set_output_mode_updates (m : Monitor) (mode : Nat)
    (ci : CrtcInfo) (mi : ModeInfo)
    (hci : m.node.videoControllerInfo = some ci)
    (hfind : m.modeCatalog.find? (fun info => info.id == mode) = some mi) :
    (m.setOutputMode mode).map
        (fun m1 => (m1.node.videoControllerInfo.map CrtcInfo.mode,
                    m1.node.videoControllerInfo.map CrtcInfo.height,
                    m1.node.videoControllerInfo.map CrtcInfo.width,
                    m1.node.videoModeInfo))
      = some (some mode, some mi.height, some ci.width, some mi) := by
  simp [Monitor.setOutputMode, hci, hfind]

/-- Witness for C5: selecting catalog mode 2 (1024x768) on `mSet` yields
mode 2, height 768, and the previous width 640. -/

theorem C5_set_output_mode_updates_witness :
    (mSet.setOutputMode 2).map
        (fun m1 => (m1.node.videoControllerInfo.map CrtcInfo.mode,
                    m1.node.videoControllerInfo.map CrtcInfo.height,
                    m1.node.videoControllerInfo.map CrtcInfo.width,
                    m1.node.videoModeInfo))
      = some (some 2, some 768, some 640, some (⟨2, 1024, 768⟩ : ModeInfo)) :=
  C5_set_output_mode_updates mSet 2 ⟨0, 0, 1, 640, 480⟩ ⟨2, 1024, 768⟩ rfl rfl

/-- Claim C6 (code bug): requesting a mode id absent from the catalog
(id 3 against `mSet`, whose catalog holds ids 1 and 2) does not fail by
logging only: after the error log the source still executes
`videoControllerInfo->mode = mode` and then dereferences the null
`videoModeInfo` (`videoModeInfo->height`), which the model reports as
`none` (undefined behaviour), not as an unchanged Monitor. -/

theorem C6_set_output_mode_null_deref :
    mSet.setOutputMode 3 = none := by
  decide

lemma if_gt_eq_max (a b : Nat) : (if b > a then b else a) = Nat.max a b := by
  simp only [Nat.max_def]
  split <;> split <;> omega

lemma hChainWalk_eq (l : List MNode) (acc : AxisAcc) (h : modesBound l = true) :
    hChainWalk acc l = some ⟨chainMaxBy MNode.modeHeight acc.maxPix l,
      chainMaxBy MNode.mmHeight acc.maxMM l,
      acc.totalPix + chainSumBy MNode.modeWidth l,
      acc.totalMM + chainSumBy MNode.mmWidth l⟩ := by
  induction l generalizing acc with
  | nil => simp [hChainWalk, chainMaxBy, chainSumBy]
  | cons n rest ih =>
    rw [modesBound, List.all_cons, Bool.and_eq_true] at h
    obtain ⟨h1, h2⟩ := h
    obtain ⟨mi, hmi⟩ := Option.isSome_iff_exists.mp h1
    simp only [hChainWalk, hmi]
    rw [ih _ h2]
    simp only [chainMaxBy, chainSumBy, List.foldl_cons, List.map_cons, List.sum_cons,
      MNode.modeHeight, MNode.mmHeight, MNode.modeWidth, MNode.mmWidth, hmi,
      Option.some.injEq, AxisAcc.mk.injEq]
    refine ⟨?_, ?_, ?_, ?_⟩
    · congr 1
      exact if_gt_eq_max _ _
    · congr 1
      exact if_gt_eq_max _ _
    · omega
    · omega

lemma vChainWalk_eq (l : List MNode) (acc : AxisAcc) (h : modesBound l = true) :
    vChainWalk acc l = some ⟨chainMaxBy MNode.modeWidth acc.maxPix l,
      chainMaxBy MNode.mmWidth acc.maxMM l,
      acc.totalPix + chainSumBy MNode.modeHeight l,
      acc.totalMM + chainSumBy MNode.mmHeight l⟩ := by
  induction l generalizing acc with
  | nil => simp [vChainWalk, chainMaxBy, chainSumBy]
  | cons n rest ih =>
    rw [modesBound, List.all_cons, Bool.and_eq_true] at h
    obtain ⟨h1, h2⟩ := h
    obtain ⟨mi, hmi⟩ := Option.isSome_iff_exists.mp h1
    simp only [vChainWalk, hmi]
    rw [ih _ h2]
    simp only [chainMaxBy, chainSumBy, List.foldl_cons, List.map_cons, List.sum_cons,
      MNode.modeHeight, MNode.mmHeight, MNode.modeWidth, MNode.mmWidth, hmi,
      Option.some.injEq, AxisAcc.mk.injEq]
    refine ⟨?_, ?_, ?_, ?_⟩
    · congr 1
      exact if_gt_eq_max _ _
    · congr 1
      exact if_gt_eq_max _ _
    · omega
    · omega

lemma calculateLimits_sets_flag {m m1 : Monitor}
    (h : m.calculateLimits = some m1) : m1.limitsCalculated = true := by
  simp only [Monitor.calculateLimits, Option.bind_eq_some, Option.some.injEq] at h
  obtain ⟨a1, -, a2, -, a3, -, a4, -, a5, -, a6, -, heq⟩ := h
  rw [← heq]

/-- Claim C2 (amended): the memoized invocation used by
`applyConfiguration` is idempotent — after a successful
`calculateLimits` call the `limitsCalculated` flag is set, so the
guarded second call returns the Monitor unchanged.  (The raw
`calculateLimits` function itself performs no memoization check and a
second direct call changes the canvas fields; see the counterexample.) -/

theorem C2_memoized_recalculate_idempotent (m m1 : Monitor)
    (h : m.calculateLimits = some m1) :
    m1.calculateLimitsMemo = some m1 := by
  simp [Monitor.calculateLimitsMemo, calculateLimits_sets_flag h]

/-- Witness for C2 (amended) at the concrete single-monitor topology `mSet`. -/

theorem C2_memoized_recalculate_idempotent_witness :
    mSet.calculateLimits = some mSetLim ∧
    mSetLim.calculateLimitsMemo = some mSetLim :=
  ⟨by decide, C2_memoized_recalculate_idempotent mSet mSetLim (by decide)⟩

/-- Counterexample to claim C2 as stated: calling `calculateLimits()`
itself a second time does not leave the canvas-limit fields identical —
on the single 640x480 monitor `mSet` the first call computes
`screenWidth = 640` but a second direct call re-accumulates the width
and yields `screenWidth = 1280`, because the function has no internal
memoization guard (the `limitsCalculated` check lives in its caller). -/

theorem C2_counterexample_second_call_changes_limits :
    mSet.calculateLimits.map Monitor.screenWidth = some 640 ∧
    (mSet.calculateLimits.bind Monitor.calculateLimits).map Monitor.screenWidth
      = some 1280 ∧
    (1280 : Nat) ≠ 640 := by
  refine ⟨by decide, by decide, by decide⟩

/-- Claim C4: after a single `calculateLimits` call on a fresh Monitor,
the canvas width is the maximum of (anchor width + left-chain widths +
right-chain widths) and the maximum mode width over the anchor and both
vertical chains; the canvas height is the maximum of (anchor height +
top-chain heights + bottom-chain heights) and the maximum mode height
over the anchor and both horizontal chains; and the millimeter
dimensions follow the same formulas over the output physical sizes. -/

theorem C4_calculate_limits_canvas_formula (m : Monitor)
    (hf : m.limitsFresh = true) (hb : m.allModesBound = true) :
    m.calculateLimits.map (fun m1 =>
        (m1.screenWidth, m1.screenHeight,
         m1.screenWidthMillimeters, m1.screenHeightMillimeters))
      = some
        (Nat.max (m.node.modeWidth + chainSumBy MNode.modeWidth m.leftChain
            + chainSumBy MNode.modeWidth m.rightChain)
           (chainMaxBy MNode.modeWidth 0 (m.topChain ++ m.node :: m.bottomChain)),
         Nat.max (m.node.modeHeight + chainSumBy MNode.modeHeight m.topChain
            + chainSumBy MNode.modeHeight m.bottomChain)
           (chainMaxBy MNode.modeHeight 0 (m.leftChain ++ m.node :: m.rightChain)),
         Nat.max (m.node.mmWidth + chainSumBy MNode.mmWidth m.leftChain
            + chainSumBy MNode.mmWidth m.rightChain)
           (chainMaxBy MNode.mmWidth 0 (m.topChain ++ m.node :: m.bottomChain)),
         Nat.max (m.node.mmHeight + chainSumBy MNode.mmHeight m.topChain
            + chainSumBy MNode.mmHeight m.bottomChain)
           (chainMaxBy MNode.mmHeight 0 (m.leftChain ++ m.node :: m.rightChain))) := by
  simp only [Monitor.allModesBound, Bool.and_eq_true] at hb
  obtain ⟨⟨⟨⟨hn, hl⟩, hr⟩, ht⟩, hbt⟩ := hb
  simp only [Monitor.limitsFresh, Bool.and_eq_true, beq_iff_eq] at hf
  obtain ⟨⟨⟨⟨⟨⟨⟨f1, f2⟩, f3⟩, f4⟩, f5⟩, f6⟩, f7⟩, f8⟩ := hf
  have hnode : modesBound [m.node] = true := by
    simp [modesBound, hn]
  rw [Monitor.calculateLimits]
  rw [hChainWalk_eq _ _ hl, Option.some_bind]
  rw [hChainWalk_eq _ _ hnode, Option.some_bind]
  rw [hChainWalk_eq _ _ hr, Option.some_bind]
  rw [vChainWalk_eq _ _ ht, Option.some_bind]
  rw [vChainWalk_eq _ _ hnode, Option.some_bind]
  rw [vChainWalk_eq _ _ hbt, Option.some_bind]
  rw [f1, f2, f3, f4, f5, f6, f7, f8]
  simp only [Option.map_some', Option.some.injEq, Prod.mk.injEq]
  refine ⟨?_, ?_, ?_, ?_⟩ <;>
    · rw [if_gt_eq_max]
      congr 1
      · simp [chainSumBy]
        omega
      · simp [chainMaxBy, List.foldl_append]

/-- Witness for C4 at `mQuad`: the canvas height is
max(1080 + 900, 1080) = 1980, matching the claim's scenario. -/

theorem C4_calculate_limits_canvas_formula_witness :
    mQuad.calculateLimits.map (fun m1 =>
        (m1.screenWidth, m1.screenHeight,
         m1.screenWidthMillimeters, m1.screenHeightMillimeters))
      = some (1920, 1980, 509, 511) :=
  (C4_calculate_limits_canvas_formula mQuad (by decide) (by decide)).trans (by decide)

lemma setPosition_videoController (n : MNode) (p : point) :
    (n.setPosition p).videoController = n.videoController := by
  cases h : n.videoControllerInfo <;> simp [MNode.setPosition, h]

lemma setPosition_videoModeInfo (n : MNode) (p : point) :
    (n.setPosition p).videoModeInfo = n.videoModeInfo := by
  cases h : n.videoControllerInfo <;> simp [MNode.setPosition, h]

lemma setPosition_crtcIsSome (n : MNode) (p : point) :
    (n.setPosition p).videoControllerInfo.isSome = n.videoControllerInfo.isSome := by
  cases h : n.videoControllerInfo <;> simp [MNode.setPosition, h]

lemma getPosition_setPosition (n : MNode) (p : point)
    (h : n.videoControllerInfo.isSome = true) :
    (n.setPosition p).getPosition = p := by
  obtain ⟨ci, hci⟩ := Option.isSome_iff_exists.mp h
  simp [MNode.setPosition, MNode.getPosition, hci]

lemma chainWidthSum_eq (l : List MNode) (acc : Nat) (h : modesBound l = true) :
    chainWidthSum acc l = some (acc + chainSumBy MNode.modeWidth l) := by
  induction l generalizing acc with
  | nil => simp [chainWidthSum, chainSumBy]
  | cons n rest ih =>
    rw [modesBound, List.all_cons, Bool.and_eq_true] at h
    obtain ⟨h1, h2⟩ := h
    obtain ⟨mi, hmi⟩ := Option.isSome_iff_exists.mp h1
    simp only [chainWidthSum, hmi]
    rw [ih _ h2]
    simp [chainSumBy, MNode.modeWidth, hmi]
    omega

lemma chainHeightSum_eq (l : List MNode) (acc : Nat) (h : modesBound l = true) :
    chainHeightSum acc l = some (acc + chainSumBy MNode.modeHeight l) := by
  induction l generalizing acc with
  | nil => simp [chainHeightSum, chainSumBy]
  | cons n rest ih =>
    rw [modesBound, List.all_cons, Bool.and_eq_true] at h
    obtain ⟨h1, h2⟩ := h
    obtain ⟨mi, hmi⟩ := Option.isSome_iff_exists.mp h1
    simp only [chainHeightSum, hmi]
    rw [ih _ h2]
    simp [chainSumBy, MNode.modeHeight, hmi]
    omega

lemma placeLeftWing_eq (l : List MNode) (root : point) (h : modesBound l = true) :
    placeLeftWing root l = some (placeLeftWingP root l) := by
  induction l with
  | nil => simp [placeLeftWing, placeLeftWingP]
  | cons n rest ih =>
    rw [modesBound, List.all_cons, Bool.and_eq_true] at h
    obtain ⟨h1, h2⟩ := h
    obtain ⟨mi, hmi⟩ := Option.isSome_iff_exists.mp h1
    simp only [placeLeftWing, hmi, ih h2, Option.some_bind]
    simp [placeLeftWingP, MNode.modeWidth, hmi]

lemma placeRightWing_eq (l : List MNode) (position : point) (h : modesBound l = true) :
    placeRightWing position l = some (placeRightWingP position l) := by
  induction l generalizing position with
  | nil => simp [placeRightWing, placeRightWingP]
  | cons n rest ih =>
    rw [modesBound, List.all_cons, Bool.and_eq_true] at h
    obtain ⟨h1, h2⟩ := h
    obtain ⟨mi, hmi⟩ := Option.isSome_iff_exists.mp h1
    simp only [placeRightWing, hmi, ih _ h2, Option.some_bind]
    simp [placeRightWingP, MNode.modeWidth, hmi]

lemma placeTopWing_eq (l : List MNode) (position : point) (h : modesBound l = true) :
    placeTopWing position l = some (placeTopWingP position l) := by
  induction l generalizing position with
  | nil => simp [placeTopWing, placeTopWingP]
  | cons n rest ih =>
    rw [modesBound, List.all_cons, Bool.and_eq_true] at h
    obtain ⟨h1, h2⟩ := h
    obtain ⟨mi, hmi⟩ := Option.isSome_iff_exists.mp h1
    simp only [placeTopWing, hmi, ih _ h2, Option.some_bind]
    simp [placeTopWingP, MNode.modeHeight, hmi]

lemma placeBottomWing_eq (l : List MNode) (position : point) (h : modesBound l = true) :
    placeBottomWing position l = some (placeBottomWingP position l) := by
  induction l generalizing position with
  | nil => simp [placeBottomWing, placeBottomWingP]
  | cons n rest ih =>
    rw [modesBound, List.all_cons, Bool.and_eq_true] at h
    obtain ⟨h1, h2⟩ := h
    obtain ⟨mi, hmi⟩ := Option.isSome_iff_exists.mp h1
    simp only [placeBottomWing, hmi, ih _ h2, Option.some_bind]
    simp [placeBottomWingP, MNode.modeHeight, hmi]

lemma calculateRelativePositions_eq (m : Monitor) (hb : m.allModesBound = true) :
    m.calculateRelativePositions = some m.relPosP := by
  simp only [Monitor.allModesBound, Bool.and_eq_true] at hb
  obtain ⟨⟨⟨⟨hn, hl⟩, hr⟩, ht⟩, hbt⟩ := hb
  obtain ⟨ami, hami⟩ := Option.isSome_iff_exists.mp hn
  rw [Monitor.calculateRelativePositions, Monitor.getPrimaryRelativePosition]
  rw [chainWidthSum_eq _ _ hl, Option.some_bind, chainHeightSum_eq _ _ ht, Option.some_bind]
  rw [Option.some_bind]
  simp only [Nat.zero_add]
  rw [placeLeftWing_eq _ _ hl, Option.some_bind]
  rw [setPosition_videoModeInfo, hami]
  simp only [placeRightWing_eq _ _ hr, placeTopWing_eq _ _ ht,
    placeBottomWing_eq _ _ hbt, Option.some_bind]
  simp [Monitor.relPosP, MNode.modeWidth, MNode.modeHeight, hami]

lemma placeLeftWingP_pts (root : point) (l : List MNode) (hc : crtcsBound l = true) :
    (placeLeftWingP root l).map MNode.getPosition
      = l.map fun n => (⟨root.x - (n.modeWidth : Int), root.y⟩ : point) := by
  induction l with
  | nil => simp [placeLeftWingP]
  | cons n rest ih =>
    rw [crtcsBound, List.all_cons, Bool.and_eq_true] at hc
    obtain ⟨h1, h2⟩ := hc
    simp only [placeLeftWingP, List.map_cons] at ih ⊢
    rw [getPosition_setPosition _ _ h1, ih h2]

lemma placeRightWingP_pts (l : List MNode) (position : point) (hc : crtcsBound l = true) :
    (placeRightWingP position l).map MNode.getPosition = rightWingPts position l := by
  induction l generalizing position with
  | nil => simp [placeRightWingP, rightWingPts]
  | cons n rest ih =>
    rw [crtcsBound, List.all_cons, Bool.and_eq_true] at hc
    obtain ⟨h1, h2⟩ := hc
    simp only [placeRightWingP, rightWingPts, List.map_cons]
    rw [getPosition_setPosition _ _ h1, ih _ h2]

lemma placeTopWingP_pts (l : List MNode) (position : point) (hc : crtcsBound l = true) :
    (placeTopWingP position l).map MNode.getPosition = topWingPts position l := by
  induction l generalizing position with
  | nil => simp [placeTopWingP, topWingPts]
  | cons n rest ih =>
    rw [crtcsBound, List.all_cons, Bool.and_eq_true] at hc
    obtain ⟨h1, h2⟩ := hc
    simp only [placeTopWingP, topWingPts, List.map_cons]
    rw [getPosition_setPosition _ _ h1, ih _ h2]

lemma placeBottomWingP_pts (l : List MNode) (position : point) (hc : crtcsBound l = true) :
    (placeBottomWingP position l).map MNode.getPosition = bottomWingPts position l := by
  induction l generalizing position with
  | nil => simp [placeBottomWingP, bottomWingPts]
  | cons n rest ih =>
    rw [crtcsBound, List.all_cons, Bool.and_eq_true] at hc
    obtain ⟨h1, h2⟩ := hc
    simp only [placeBottomWingP, bottomWingPts, List.map_cons]
    rw [getPosition_setPosition _ _ h1, ih _ h2]

/-- Claim C3 (amended): with all chains' mode and controller infos
bound, `calculateRelativePositions` places the anchor at (sum of
left-chain widths, sum of top-chain heights); every left-chain monitor
at y = anchor y and x = anchor x minus its own width (measured from the
anchor's x for every node, not cumulatively); the right chain outward
from anchor x + anchor width, each successive x advanced by the previous
node's width; the top chain cumulatively upward, each y = previous y
minus the node's own height; and the bottom chain outward from anchor y
+ anchor height, each successive y advanced by the previous node's
height. -/

theorem C3_relative_positions_formula (m : Monitor)
    (hb : m.allModesBound = true) (hc : m.allCrtcsBound = true) :
    m.calculateRelativePositions.map (fun m1 =>
        (m1.node.getPosition,
         m1.leftChain.map MNode.getPosition,
         m1.rightChain.map MNode.getPosition,
         m1.topChain.map MNode.getPosition,
         m1.bottomChain.map MNode.getPosition))
      = some
        ((⟨(chainSumBy MNode.modeWidth m.leftChain : Int),
           (chainSumBy MNode.modeHeight m.topChain : Int)⟩ : point),
         m.leftChain.map (fun n =>
           (⟨(chainSumBy MNode.modeWidth m.leftChain : Int) - (n.modeWidth : Int),
             (chainSumBy MNode.modeHeight m.topChain : Int)⟩ : point)),
         rightWingPts ⟨(chainSumBy MNode.modeWidth m.leftChain : Int) + (m.node.modeWidth : Int),
           (chainSumBy MNode.modeHeight m.topChain : Int)⟩ m.rightChain,
         topWingPts ⟨(chainSumBy MNode.modeWidth m.leftChain : Int),
           (chainSumBy MNode.modeHeight m.topChain : Int)⟩ m.topChain,
         bottomWingPts ⟨(chainSumBy MNode.modeWidth m.leftChain : Int),
           (chainSumBy MNode.modeHeight m.topChain : Int) + (m.node.modeHeight : Int)⟩ m.bottomChain) := by
  have hcb := hc
  simp only [Monitor.allCrtcsBound, Bool.and_eq_true] at hcb
  obtain ⟨⟨⟨⟨hcn, hcl⟩, hcr⟩, hct⟩, hcbt⟩ := hcb
  rw [calculateRelativePositions_eq m hb]
  simp only [Option.map_some', Monitor.relPosP, Option.some.injEq, Prod.mk.injEq]
  refine ⟨getPosition_setPosition _ _ hcn, ?_, ?_, ?_, ?_⟩
  · exact placeLeftWingP_pts _ _ hcl
  · exact placeRightWingP_pts _ _ hcr
  · exact placeTopWingP_pts _ _ hct
  · exact placeBottomWingP_pts _ _ hcbt

/-- Witness for C3 (amended) at `mTri`: x-coordinates are anchor = 4
(the left-chain width), left neighbour = 0, right neighbour = 4 + 10. -/

theorem C3_relative_positions_formula_witness :
    mTri.calculateRelativePositions.map (fun m1 =>
        (m1.node.getPosition,
         m1.leftChain.map MNode.getPosition,
         m1.rightChain.map MNode.getPosition,
         m1.topChain.map MNode.getPosition,
         m1.bottomChain.map MNode.getPosition))
      = some ((⟨4, 0⟩ : point), [(⟨0, 0⟩ : point)], [(⟨14, 0⟩ : point)], [], []) :=
  (C3_relative_positions_formula mTri (by decide) (by decide)).trans (by decide)

/-- Counterexample to claim C3 as stated: on `mLeftPair` the anchor sits
at x = 3 (= 1 + 2) and the claim's rule "each left-chain monitor gets
x = previous x minus its own width" forces the outer left monitor to
x = (3 - 1) - 2 = 0, but the code assigns x = 3 - 2 = 1 because the
left-wing loop always subtracts from the fixed anchor root, not from the
previously placed position. -/

theorem C3_counterexample_left_chain_not_cumulative :
    mLeftPair.calculateRelativePositions.map
        (fun m1 => m1.leftChain.map fun n => n.getPosition.x)
      = some [2, 1] ∧ ([2, 1] : List Int) ≠ [2, 0] :=
  ⟨by decide, by decide⟩

lemma applyConfigurationCommit_tag (n : MNode)
    (h : n.videoControllerInfo.isSome = true) :
    ∃ e, applyConfigurationCommit n = some e ∧
      e.tag = EffectTag.commitT n.videoController := by
  obtain ⟨ci, hci⟩ := Option.isSome_iff_exists.mp h
  refine ⟨ServerEffect.commitCrtc n.videoController ci.x ci.y ci.mode
    (if ci.mode = 0 then 0 else n.videoOutput) (if ci.mode = 0 then 0 else 1),
    by simp [applyConfigurationCommit, hci], rfl⟩

lemma commitChain_eq (l : List MNode) (hc : crtcsBound l = true) :
    ∃ es, commitChain l = some es ∧
      es.map ServerEffect.tag
        = (l.map MNode.videoController).map EffectTag.commitT := by
  induction l with
  | nil => exact ⟨[], rfl, rfl⟩
  | cons n rest ih =>
    rw [crtcsBound, List.all_cons, Bool.and_eq_true] at hc
    obtain ⟨h1, h2⟩ := hc
    obtain ⟨e, he, htag⟩ := applyConfigurationCommit_tag n h1
    obtain ⟨es, hes, htags⟩ := ih h2
    refine ⟨e :: es, ?_, ?_⟩
    · simp [commitChain, he, hes]
    · simp [htag, htags]

lemma placeLeftWingP_ctrls (root : point) (l : List MNode) :
    (placeLeftWingP root l).map MNode.videoController = l.map MNode.videoController := by
  simp [placeLeftWingP, List.map_map, Function.comp_def, setPosition_videoController]

lemma placeRightWingP_ctrls (l : List MNode) (position : point) :
    (placeRightWingP position l).map MNode.videoController = l.map MNode.videoController := by
  induction l generalizing position with
  | nil => simp [placeRightWingP]
  | cons n rest ih =>
    simp [placeRightWingP, setPosition_videoController, ih]

lemma placeTopWingP_ctrls (l : List MNode) (position : point) :
    (placeTopWingP position l).map MNode.videoController = l.map MNode.videoController := by
  induction l generalizing position with
  | nil => simp [placeTopWingP]
  | cons n rest ih =>
    simp [placeTopWingP, setPosition_videoController, ih]

lemma placeBottomWingP_ctrls (l : List MNode) (position : point) :
    (placeBottomWingP position l).map MNode.videoController = l.map MNode.videoController := by
  induction l generalizing position with
  | nil => simp [placeBottomWingP]
  | cons n rest ih =>
    simp [placeBottomWingP, setPosition_videoController, ih]

lemma placeLeftWingP_crtcs (root : point) (l : List MNode) :
    crtcsBound (placeLeftWingP root l) = crtcsBound l := by
  simp [crtcsBound, placeLeftWingP, List.all_map, Function.comp_def, setPosition_crtcIsSome]

lemma placeRightWingP_crtcs (l : List MNode) (position : point) :
    crtcsBound (placeRightWingP position l) = crtcsBound l := by
  induction l generalizing position with
  | nil => simp [placeRightWingP]
  | cons n rest ih =>
    simp [placeRightWingP, crtcsBound, List.all_cons] at ih ⊢
    rw [setPosition_crtcIsSome, ih]

lemma placeTopWingP_crtcs (l : List MNode) (position : point) :
    crtcsBound (placeTopWingP position l) = crtcsBound l := by
  induction l generalizing position with
  | nil => simp [placeTopWingP]
  | cons n rest ih =>
    simp [placeTopWingP, crtcsBound, List.all_cons] at ih ⊢
    rw [setPosition_crtcIsSome, ih]

lemma placeBottomWingP_crtcs (l : List MNode) (position : point) :
    crtcsBound (placeBottomWingP position l) = crtcsBound l := by
  induction l generalizing position with
  | nil => simp [placeBottomWingP]
  | cons n rest ih =>
    simp [placeBottomWingP, crtcsBound, List.all_cons] at ih ⊢
    rw [setPosition_crtcIsSome, ih]

lemma calculateLimits_preserves {m m1 : Monitor}
    (h : m.calculateLimits = some m1) :
    m1.node = m.node ∧ m1.isPrimary = m.isPrimary ∧
    m1.leftChain = m.leftChain ∧ m1.rightChain = m.rightChain ∧
    m1.topChain = m.topChain ∧ m1.bottomChain = m.bottomChain := by
  simp only [Monitor.calculateLimits, Option.bind_eq_some, Option.some.injEq] at h
  obtain ⟨a1, -, a2, -, a3, -, a4, -, a5, -, a6, -, heq⟩ := h
  rw [← heq]
  exact ⟨rfl, rfl, rfl, rfl, rfl, rfl⟩

lemma calculateLimits_some (m : Monitor) (hb : m.allModesBound = true) :
    ∃ m1, m.calculateLimits = some m1 := by
  simp only [Monitor.allModesBound, Bool.and_eq_true] at hb
  obtain ⟨⟨⟨⟨hn, hl⟩, hr⟩, ht⟩, hbt⟩ := hb
  have hnode : modesBound [m.node] = true := by
    simp [modesBound, hn]
  rw [Monitor.calculateLimits]
  rw [hChainWalk_eq _ _ hl, Option.some_bind]
  rw [hChainWalk_eq _ _ hnode, Option.some_bind]
  rw [hChainWalk_eq _ _ hr, Option.some_bind]
  rw [vChainWalk_eq _ _ ht, Option.some_bind]
  rw [vChainWalk_eq _ _ hnode, Option.some_bind]
  rw [vChainWalk_eq _ _ hbt, Option.some_bind]
  exact ⟨_, rfl⟩

lemma calculateLimitsMemo_spec (m : Monitor) (hb : m.allModesBound = true) :
    ∃ m1, m.calculateLimitsMemo = some m1 ∧
      m1.node = m.node ∧ m1.isPrimary = m.isPrimary ∧
      m1.leftChain = m.leftChain ∧ m1.rightChain = m.rightChain ∧
      m1.topChain = m.topChain ∧ m1.bottomChain = m.bottomChain := by
  rw [Monitor.calculateLimitsMemo]
  by_cases hflag : m.limitsCalculated
  · rw [if_pos hflag]
    exact ⟨m, rfl, rfl, rfl, rfl, rfl, rfl, rfl⟩
  · rw [if_neg hflag]
    obtain ⟨m1, hm1⟩ := calculateLimits_some m hb
    obtain ⟨p1, p2, p3, p4, p5, p6⟩ := calculateLimits_preserves hm1
    exact ⟨m1, hm1, p1, p2, p3, p4, p5, p6⟩

/-- Claim C1 (amended): for a Monitor that is not off, with all infos
bound, `applyConfiguration` performs exactly: the exclusive grab; the
anchor commit; the primary-output marker if and only if the anchor's
primary flag is set (issued immediately after the anchor commit, before
any chain commit); the commits of every monitor along the left, right,
top, and bottom chains in that order with no deduplication across
chains; exactly one canvas-size write; the ungrab; and one blocking
synchronization — in that order. -/

theorem C1_apply_configuration_effect_order (m : Monitor)
    (hoff : m.isOff = some false)
    (hb : m.allModesBound = true) (hc : m.allCrtcsBound = true) :
    ∃ m2 tr, m.applyConfiguration = some (m2, tr) ∧
      tr.map ServerEffect.tag
        = EffectTag.grabT :: EffectTag.commitT m.node.videoController ::
          ((if m.isPrimary then [EffectTag.primaryT] else []) ++
           m.leftChain.map (fun n => EffectTag.commitT n.videoController) ++
           m.rightChain.map (fun n => EffectTag.commitT n.videoController) ++
           m.topChain.map (fun n => EffectTag.commitT n.videoController) ++
           m.bottomChain.map (fun n => EffectTag.commitT n.videoController) ++
           [EffectTag.screenSizeT, EffectTag.ungrabT, EffectTag.syncT]) := by
  have hcc := hc
  simp only [Monitor.allCrtcsBound, Bool.and_eq_true] at hcc
  obtain ⟨⟨⟨⟨hcn, hcl⟩, hcr⟩, hct⟩, hcbt⟩ := hcc
  obtain ⟨m1, hm1, pnode, pprim, pleft, pright, ptop, pbot⟩ := calculateLimitsMemo_spec m hb
  have hb1 : m1.allModesBound = true := by
    rw [Monitor.allModesBound] at hb ⊢
    rw [pnode, pleft, pright, ptop, pbot]
    exact hb
  rw [Monitor.applyConfiguration, hoff]
  simp only [Option.some_bind, Bool.false_eq_true, if_false]
  rw [hm1, Option.some_bind]
  rw [calculateRelativePositions_eq m1 hb1, Option.some_bind]
  have hanchor : m1.relPosP.node.videoControllerInfo.isSome = true := by
    simp only [Monitor.relPosP, setPosition_crtcIsSome, pnode]
    exact hcn
  obtain ⟨eA, heA, htagA⟩ := applyConfigurationCommit_tag _ hanchor
  rw [heA, Option.some_bind]
  have hLc : crtcsBound m1.relPosP.leftChain = true := by
    simp only [Monitor.relPosP, placeLeftWingP_crtcs, pleft]
    exact hcl
  have hRc : crtcsBound m1.relPosP.rightChain = true := by
    simp only [Monitor.relPosP, placeRightWingP_crtcs, pright]
    exact hcr
  have hTc : crtcsBound m1.relPosP.topChain = true := by
    simp only [Monitor.relPosP, placeTopWingP_crtcs, ptop]
    exact hct
  have hBc : crtcsBound m1.relPosP.bottomChain = true := by
    simp only [Monitor.relPosP, placeBottomWingP_crtcs, pbot]
    exact hcbt
  obtain ⟨esL, hesL, htL⟩ := commitChain_eq _ hLc
  obtain ⟨esR, hesR, htR⟩ := commitChain_eq _ hRc
  obtain ⟨esT, hesT, htT⟩ := commitChain_eq _ hTc
  obtain ⟨esB, hesB, htB⟩ := commitChain_eq _ hBc
  rw [hesL, Option.some_bind, hesR, Option.some_bind, hesT, Option.some_bind,
    hesB, Option.some_bind]
  refine ⟨m1.relPosP, _, rfl, ?_⟩
  simp only [List.map_cons, List.map_append, List.map_nil, htagA, htL, htR, htT, htB]
  have hprim : m1.relPosP.isPrimary = m.isPrimary := by
    simp only [Monitor.relPosP]
    exact pprim
  have hAn : m1.relPosP.node.videoController = m.node.videoController := by
    simp only [Monitor.relPosP, setPosition_videoController, pnode]
  rw [hAn, hprim]
  have chainsL : m1.relPosP.leftChain.map MNode.videoController
      = m.leftChain.map MNode.videoController := by
    simp only [Monitor.relPosP, placeLeftWingP_ctrls, pleft]
  have chainsR : m1.relPosP.rightChain.map MNode.videoController
      = m.rightChain.map MNode.videoController := by
    simp only [Monitor.relPosP, placeRightWingP_ctrls, pright]
  have chainsT : m1.relPosP.topChain.map MNode.videoController
      = m.topChain.map MNode.videoController := by
    simp only [Monitor.relPosP, placeTopWingP_ctrls, ptop]
  have chainsB : m1.relPosP.bottomChain.map MNode.videoController
      = m.bottomChain.map MNode.videoController := by
    simp only [Monitor.relPosP, placeBottomWingP_ctrls, pbot]
  rw [chainsL, chainsR, chainsT, chainsB]
  cases hp : m.isPrimary <;> simp [List.map_map, Function.comp_def, ServerEffect.tag]

/-- Witness for C1 (amended) at `cm1`: the trace is grab, anchor commit,
primary marker, left-chain commit, canvas size, ungrab, sync. -/

theorem C1_apply_configuration_effect_order_witness :
    cm1.applyConfiguration.map (fun p => p.2.map ServerEffect.tag)
      = some [EffectTag.grabT, EffectTag.commitT 1, EffectTag.primaryT,
              EffectTag.commitT 2, EffectTag.screenSizeT, EffectTag.ungrabT,
              EffectTag.syncT] := by
  obtain ⟨m2, tr, h1, h2⟩ :=
    C1_apply_configuration_effect_order cm1 (by decide) (by decide) (by decide)
  simp only [h1, Option.map_some']
  rw [h2]
  decide

/-- Counterexample to claim C1 as stated: the code sets the
primary-output marker immediately after committing the anchor and before
walking the chains, whereas the claim's order places it after all chain
commits; on `cm1` the actual trace has the primary marker third (before
the left-chain commit), not fourth. -/

theorem C1_counterexample_primary_before_chains :
    cm1.applyConfiguration.map (fun p => p.2.map ServerEffect.tag)
      = some [EffectTag.grabT, EffectTag.commitT 1, EffectTag.primaryT,
              EffectTag.commitT 2, EffectTag.screenSizeT, EffectTag.ungrabT,
              EffectTag.syncT] ∧
    ([EffectTag.grabT, EffectTag.commitT 1, EffectTag.primaryT,
      EffectTag.commitT 2, EffectTag.screenSizeT, EffectTag.ungrabT,
      EffectTag.syncT] : List EffectTag)
      ≠ [EffectTag.grabT, EffectTag.commitT 1, EffectTag.commitT 2,
         EffectTag.primaryT, EffectTag.screenSizeT, EffectTag.ungrabT,
         EffectTag.syncT] :=
  ⟨by decide, by decide⟩

/-- Claim C10 (amended): when `applyConfiguration` takes the off branch,
its single disable commit reads x, y, and mode through the controller
info, so the branch avoids the null sentinel exactly when the controller
info is bound: for a Monitor whose controller info is the null sentinel
— the state `release()` leaves behind — the commit dereferences the null
sentinel (modelled as `none`), while for a bound controller info (the
state `turnOff()` leaves behind) the branch succeeds with the single
disable commit. -/

theorem C10_off_branch_null_safety (m : Monitor) (hoff : m.isOff = some true) :
    (m.node.videoControllerInfo = none → m.applyConfiguration = none) ∧
    (∀ ci : CrtcInfo, m.node.videoControllerInfo = some ci →
      m.applyConfiguration
        = some (m, [ServerEffect.commitCrtc m.node.videoController ci.x ci.y ci.mode
            (if ci.mode = 0 then 0 else m.node.videoOutput)
            (if ci.mode = 0 then 0 else 1)])) := by
  constructor
  · intro h
    rw [Monitor.applyConfiguration, hoff, Option.some_bind]
    simp [applyConfigurationCommit, h]
  · intro ci h
    rw [Monitor.applyConfiguration, hoff, Option.some_bind]
    simp [applyConfigurationCommit, h]

/-- Counterexample to claim C10 as stated: `releasedMon` reaches the
off branch (`isOff` = true) with a null controller info, and the single
disable commit dereferences the null sentinel — `applyConfiguration` on
a Monitor reset to Unbound by `release()` hits the null dereference the
claim rules out. -/

theorem C10_counterexample_release_null_deref :
    releasedMon.isOff = some true ∧
    releasedMon.node.videoControllerInfo = none ∧
    releasedMon.applyConfiguration = none :=
  ⟨by decide, by decide, by decide⟩

/-- Witness for C10 (amended): the null branch at `releasedMon`, and the
bound branch at `mSet.turnOff` (controller kept, mode disabled). -/

theorem C10_off_branch_null_safety_witness :
    releasedMon.isOff = some true ∧ releasedMon.applyConfiguration = none ∧
    mSet.turnOff.isOff = some true ∧
    mSet.turnOff.applyConfiguration
      = some (mSet.turnOff, [ServerEffect.commitCrtc 1 0 0 0 0 0]) :=
  ⟨by decide,
   (C10_off_branch_null_safety releasedMon (by decide)).1 (by decide),
   by decide,
   by
    have h := (C10_off_branch_null_safety mSet.turnOff (by decide)).2
      ⟨0, 0, 0, 640, 480⟩ (by decide)
    simpa using h⟩
